import Mathlib

/-!
Verification of the dulayni-client authentication/session lifecycle and
request-dispatch protocol.

The definitions below are a shallow embedding of the Python sources:
  * `src/dulayni/auth/session.py`       — `SessionManager`
  * `src/dulayni/auth/authenticator.py` — `AuthenticationManager`
  * `src/dulayni/client.py`             — `DulayniClient`, `ToolExecutionDisplay`
  * `src/dulayni/mcp/start.py`          — filesystem-helper process supervision
  * `src/dulayni/exceptions.py`         — error taxonomy

Conventions of the embedding:
  * Python `None` becomes `Option.none`; a Python attribute that can hold
    `None` has an `Option` type.
  * Python truthiness of an optional string (`if x:`) is `strTruthy`:
    present and non-empty.
  * Wall-clock time (`time.time()`) is passed explicitly as an integer
    parameter `now`; only its linear order is ever used by the code.
  * Network I/O is modelled by outcome oracles passed as arguments: each
    HTTP round-trip the code can attempt is one inductive "outcome" value,
    and every function returns the list of `ApiCall`s it actually issued,
    in order, alongside its result and the updated state.
  * Raised exceptions become `Except.error` values of type `DulayniError`,
    one constructor per exception class of `exceptions.py`.
-/

namespace Dulayni

/-- Python truthiness of an optional string: present and non-empty.
`if x:` on an `Optional[str]` attribute. -/
def strTruthy : Option String → Bool
  | none => false
  | some s => !s.isEmpty

/-- A persisted session record (`~/.dulayni/session.json`).  Every field is
optional: the JSON object loaded from disk may lack any of the keys
(`dict.get` returns `None` for a missing key). -/
structure Session where
  phone_number : Option String
  auth_token : Option String
  expiry_time : Option Int
  deriving DecidableEq, Repr

/-- `SessionManager.is_session_valid` (src/dulayni/auth/session.py:36-43),
textually identical to the free function `is_session_valid` in
src/dulayni/cli.py:346-353.

Python:
  if not session_data or not session_data.get("auth_token"): return False
  expiry_time = session_data.get("expiry_time", 0)
  return time.time() < expiry_time

`session_data` is `None` when no file was readable; an empty dict is also
falsy in Python but is represented here by the all-`none` record, which the
`auth_token` check rejects the same way. -/
def is_session_valid (session_data : Option Session) (now : Int) : Bool :=
  match session_data with
  | none => false
  | some s =>
    if !strTruthy s.auth_token then false
    else decide (now < s.expiry_time.getD 0)

theorem strTruthy_eq_true_iff (o : Option String) :
    strTruthy o = true ↔ ∃ t, o = some t ∧ t ≠ "" := by
  cases o with
  | none => simp [strTruthy]
  | some s =>
    simp only [strTruthy, Bool.not_eq_true', Bool.eq_false_iff, Ne,
      String.isEmpty_iff, Option.some.injEq]
    constructor
    · intro h; exact ⟨s, rfl, h⟩
    · rintro ⟨t, rfl, h⟩; exact h

/-- **C2** — For every session record `S` that carries an `expiry_time`,
`is_session_valid S` returns `true` iff `S`'s `auth_token` is non-empty and
the current time is strictly below `S`'s `expiry_time`. -/
theorem is_session_valid_iff (s : Session) (e : Int) (now : Int)
    (h : s.expiry_time = some e) :
    is_session_valid (some s) now = true ↔
      (strTruthy s.auth_token = true ∧ now < e) := by
  simp only [is_session_valid, h, Option.getD_some]
  cases hT : strTruthy s.auth_token <;> simp [hT]

/-- Witness for C2: a session holding token `"tok"` expiring at time `100`
is valid at time `50`. -/
theorem is_session_valid_iff_witness :
    is_session_valid
      (some { phone_number := some "+221", auth_token := some "tok",
              expiry_time := some 100 }) 50 = true :=
  (is_session_valid_iff
      { phone_number := some "+221", auth_token := some "tok",
        expiry_time := some 100 } 100 50 rfl).mpr ⟨by decide, by decide⟩

/-- **C10** — A persisted record with a non-empty `auth_token` but no
`expiry_time` field at all is treated as already expired, not as valid and
not as an error: `dict.get("expiry_time", 0)` defaults to `0` and
`time.time() < 0` is false for any non-negative clock. -/
theorem is_session_valid_missing_expiry (s : Session) (now : Int)
    (hexp : s.expiry_time = none) (htok : strTruthy s.auth_token = true)
    (hnow : 0 ≤ now) :
    is_session_valid (some s) now = false := by
  simp only [is_session_valid, hexp, htok, Bool.not_true, Bool.false_eq_true,
    if_false, Option.getD_none, decide_eq_false_iff_not, not_lt]
  exact hnow

/-- Witness for C10: a token-bearing record lacking `expiry_time` is invalid
at time `50`. -/
theorem is_session_valid_missing_expiry_witness :
    is_session_valid
      (some { phone_number := some "+221", auth_token := some "tok",
              expiry_time := none }) 50 = false :=
  is_session_valid_missing_expiry
    { phone_number := some "+221", auth_token := some "tok",
      expiry_time := none } 50 rfl (by decide) (by decide)

/-- The HTTP round-trips the client code can attempt, one per endpoint. -/
inductive ApiCall
  | authPost            -- POST {base_url}/auth
  | verifyPost          -- POST {base_url}/verify
  | runAgentPost        -- POST {base_url}/run_agent
  | runAgentStreamPost  -- POST {base_url}/run_agent_stream
  | balanceGet          -- balance/billing endpoint
  | healthGet           -- GET {base_url}/health
  deriving DecidableEq, Repr

/-- Structured data carried by `DulayniPaymentRequiredError.payment_info`
(src/dulayni/exceptions.py:28-34 stores it; the callers in
authenticator.py read exactly these three keys). -/
structure PaymentInfo where
  current_balance : Int
  required_balance : Int
  payment_url : String
  deriving DecidableEq, Repr

/-- The exception taxonomy of src/dulayni/exceptions.py, as error values. -/
inductive DulayniError
  | clientError (msg : String)
  | connectionError (msg : String)
  | timeoutError (msg : String)
  | authenticationError (msg : String)
  | paymentRequiredError (msg : String) (payment_info : PaymentInfo)
  deriving DecidableEq, Repr

/-- In-memory state of a `DulayniClient` (src/dulayni/client.py:189-237).
URL fields are derived from `base_url` and never branch the logic, so they
are not carried.  All optional constructor parameters are stored as-is,
`None` included. -/
structure Client where
  phone_number : Option String
  dulayni_api_key : Option String
  model : Option String
  agent_type : Option String
  thread_id : Option String
  system_prompt : Option String
  mcp_servers : Option String
  memory_db : Option String
  pg_uri : Option String
  is_authenticated : Bool
  auth_token : Option String
  verification_session_id : Option String
  deriving DecidableEq, Repr

/-- `DulayniClient.__init__` (src/dulayni/client.py:194-237): stores every
parameter as given and unconditionally initialises
`is_authenticated = False`, `auth_token = None`,
`verification_session_id = None` — also when `dulayni_api_key` is given. -/
def mkClient (phone_number dulayni_api_key model agent_type thread_id
    system_prompt mcp_servers memory_db pg_uri : Option String) : Client :=
  { phone_number := phone_number
    dulayni_api_key := dulayni_api_key
    model := model
    agent_type := agent_type
    thread_id := thread_id
    system_prompt := system_prompt
    mcp_servers := mcp_servers
    memory_db := memory_db
    pg_uri := pg_uri
    is_authenticated := false
    auth_token := none
    verification_session_id := none }

/-- `DulayniClient.set_auth_token` (client.py:239-242):
`self.is_authenticated = bool(auth_token)`. -/
def set_auth_token (c : Client) (auth_token : String) : Client :=
  { c with auth_token := some auth_token,
           is_authenticated := !auth_token.isEmpty }

/-- `DulayniClient.set_dulayni_api_key` (client.py:244-249): stores the key;
sets `is_authenticated = True` only when the key is truthy (non-empty). -/
def set_dulayni_api_key (c : Client) (dulayni_api_key : String) : Client :=
  { c with dulayni_api_key := some dulayni_api_key,
           is_authenticated :=
             if !dulayni_api_key.isEmpty then true else c.is_authenticated }

/-- `DulayniClient.set_phone_number` (client.py:622-628): resets the whole
authentication state. -/
def set_phone_number (c : Client) (phone_number : Option String) : Client :=
  { c with phone_number := phone_number,
           is_authenticated := false,
           auth_token := none,
           verification_session_id := none }

/-- Server JSON body answered by `POST /auth`; only `session_id` is ever
read by the client (`result.get("session_id")`). -/
structure AuthBody where
  status : Option String
  message : Option String
  session_id : Option String
  deriving DecidableEq, Repr

/-- The `/auth` response body returned by the skip branch of
`request_verification_code`. -/
def skippedAuthBody : AuthBody :=
  { status := some "skipped"
    message := some "Dulayni API key provided, skipping WhatsApp authentication"
    session_id := some "" }

/-- Outcome oracle for one `POST /auth` round-trip. -/
inductive AuthNet
  | success (body : AuthBody)          -- 2xx, JSON decoded
  | connectionFailure                  -- requests ConnectionError
  | httpErrorJson (message : String)   -- non-2xx whose body decodes as JSON
  | httpErrorRaw (reason : String)     -- other RequestException
  deriving DecidableEq, Repr

/-- `DulayniClient.request_verification_code` (client.py:251-302).
Returns (updated client, result-or-error, network calls issued in order).
The skip branch fires on a truthy `dulayni_api_key` before any other work;
a missing phone number raises before the POST; otherwise the POST happens
and the outcome decides the rest. -/
def request_verification_code (c : Client) (phone_number : Option String)
    (net : AuthNet) : Client × Except DulayniError AuthBody × List ApiCall :=
  if strTruthy c.dulayni_api_key then
    (c, .ok skippedAuthBody, [])
  else
    -- phone = phone_number or self.phone_number
    let phone := if strTruthy phone_number then phone_number else c.phone_number
    if !strTruthy phone then
      (c, .error (.authenticationError
        "Phone number is required for authentication"), [])
    else
      match net with
      | .success body =>
        -- self.verification_session_id = result.get("session_id");
        -- if phone_number: self.phone_number = phone_number
        ({ c with verification_session_id := body.session_id,
                  phone_number := if strTruthy phone_number then phone_number
                                  else c.phone_number },
         .ok body, [.authPost])
      | .connectionFailure =>
        (c, .error (.connectionError
          "Could not connect to dulayni server at /auth"), [.authPost])
      | .httpErrorJson message =>
        (c, .error (.authenticationError
          ("Authentication failed: " ++ message)), [.authPost])
      | .httpErrorRaw reason =>
        (c, .error (.authenticationError
          ("Authentication request failed: " ++ reason)), [.authPost])

/-- Server JSON body answered by `POST /verify`; only `auth_token` is read. -/
structure VerifyBody where
  status : Option String
  message : Option String
  auth_token : Option String
  deriving DecidableEq, Repr

/-- The `/verify` response body returned by the skip branch of
`verify_code`. -/
def skippedVerifyBody : VerifyBody :=
  { status := some "skipped"
    message := some "Dulayni API key provided, skipping WhatsApp authentication"
    auth_token := none }

/-- Outcome oracle for one `POST /verify` round-trip. -/
inductive VerifyNet
  | success (body : VerifyBody)
  | connectionFailure
  | httpErrorJson (message : String)
  | httpErrorRaw (reason : String)
  deriving DecidableEq, Repr

/-- `DulayniClient.verify_code` (client.py:304-352). -/
def verify_code (c : Client) (_verification_code : String)
    (session_id : Option String) (net : VerifyNet) :
    Client × Except DulayniError VerifyBody × List ApiCall :=
  if strTruthy c.dulayni_api_key then
    (c, .ok skippedVerifyBody, [])
  else
    -- session = session_id or self.verification_session_id
    let session := if strTruthy session_id then session_id
                   else c.verification_session_id
    if !strTruthy session then
      (c, .error (.authenticationError
        "No verification session. Call request_verification_code() first."),
       [])
    else
      match net with
      | .success body =>
        -- self.auth_token = result.get("auth_token");
        -- self.is_authenticated = bool(self.auth_token)
        ({ c with auth_token := body.auth_token,
                  is_authenticated := strTruthy body.auth_token },
         .ok body, [.verifyPost])
      | .connectionFailure =>
        (c, .error (.connectionError
          "Could not connect to dulayni server at /verify"), [.verifyPost])
      | .httpErrorJson message =>
        (c, .error (.authenticationError
          ("Verification failed: " ++ message)), [.verifyPost])
      | .httpErrorRaw reason =>
        (c, .error (.authenticationError
          ("Verification request failed: " ++ reason)), [.verifyPost])

/-- Server JSON body answered by `POST /run_agent`; `query` reads
`response.json().get("response", "")`. -/
structure RunAgentBody where
  response : Option String
  deriving DecidableEq, Repr

/-- Outcome oracle for one `POST /run_agent` round-trip. -/
inductive RunAgentNet
  | ok (body : RunAgentBody)     -- 2xx, JSON decoded
  | unauthorized                 -- HTTP 401
  | connectionFailure            -- requests ConnectionError
  | timeout                      -- requests Timeout
  | httpError (reason : String)  -- other non-2xx (raise_for_status)
  deriving DecidableEq, Repr

/-- The message of the `DulayniAuthenticationError` raised by the
authentication gate of `query`, `query_json` and `query_stream`. -/
def authRequiredMsg : String :=
  "Authentication required. Call authenticate() or verify_code() first, or provide Dulayni API key."

/-- The message of the `DulayniAuthenticationError` raised on a 401. -/
def authExpiredMsg : String :=
  "Authentication expired. Please authenticate again."

/-- `DulayniClient.query` (client.py:459-508).  The authentication gate
`if not self.is_authenticated and not self.dulayni_api_key` raises before
any network activity; a 401 response clears the in-memory authentication
state and raises; other failures are translated per exceptions.py.
`query_json` (client.py:510-559) has the identical gate, 401 handling and
state effects, differing only in returning the whole body. -/
def query (c : Client) (_content : String) (net : RunAgentNet) :
    Client × Except DulayniError String × List ApiCall :=
  if !c.is_authenticated && !strTruthy c.dulayni_api_key then
    (c, .error (.authenticationError authRequiredMsg), [])
  else
    match net with
    | .ok body => (c, .ok (body.response.getD ""), [.runAgentPost])
    | .unauthorized =>
      ({ c with is_authenticated := false, auth_token := none },
       .error (.authenticationError authExpiredMsg),
       [.runAgentPost])
    | .connectionFailure =>
      (c, .error (.connectionError
        "Could not connect to dulayni server at /run_agent"), [.runAgentPost])
    | .timeout =>
      (c, .error (.timeoutError
        "Request timed out. The query may be taking too long to process."),
       [.runAgentPost])
    | .httpError reason =>
      (c, .error (.clientError ("API Error: " ++ reason)), [.runAgentPost])

/-- `DulayniClient.set_thread_id` (client.py:594-596). -/
def set_thread_id (c : Client) (thread_id : Option String) : Client :=
  { c with thread_id := thread_id }

/-- `DulayniClient.set_system_prompt` (client.py:598-600). -/
def set_system_prompt (c : Client) (system_prompt : Option String) : Client :=
  { c with system_prompt := system_prompt }

/-- `DulayniClient.set_memory_db` (client.py:602-604). -/
def set_memory_db (c : Client) (memory_db : Option String) : Client :=
  { c with memory_db := memory_db }

/-- `DulayniClient.set_mcp_servers` (client.py:606-608). -/
def set_mcp_servers (c : Client) (mcp_servers : Option String) : Client :=
  { c with mcp_servers := mcp_servers }

/-- `DulayniClient.set_pg_uri` (client.py:610-612). -/
def set_pg_uri (c : Client) (pg_uri : Option String) : Client :=
  { c with pg_uri := pg_uri }

/-- `DulayniClient.set_model` (client.py:614-616). -/
def set_model (c : Client) (model : Option String) : Client :=
  { c with model := model }

/-- `DulayniClient.set_agent_type` (client.py:618-620). -/
def set_agent_type (c : Client) (agent_type : Option String) : Client :=
  { c with agent_type := agent_type }

/-- The `dulayni_api_key` fast path of `DulayniClient.authenticate`
(client.py:354-361): `self.is_authenticated = True`, no network call.  The
rest of `authenticate` is composed of `request_verification_code` and
`verify_code`, already modelled above. -/
def authenticate_skip (c : Client) : Client :=
  { c with is_authenticated := true }

/-- Server JSON body of a successful balance query (spec §6:
`{phone_number, balance}`). -/
structure BalanceBody where
  phone_number : Option String
  balance : Int
  deriving DecidableEq, Repr

/-- Outcome oracle for one balance round-trip. -/
inductive BalanceNet
  | success (body : BalanceBody)
  | paymentRequired (current_balance required_balance : Int)
      (payment_url : String)     -- HTTP 402-class with structured body
  | connectionFailure
  | timeout
  | httpError (reason : String)
  deriving DecidableEq, Repr

/-- Modelled from the spec: `DulayniClient.get_balance` is invoked by
`AuthenticationManager.handle_whatsapp_authentication`
(auth/authenticator.py:31,72), which consumes the
`DulayniPaymentRequiredError` it raises, but the method body itself is
absent from the repository snapshot.  Spec §4.4: balance queries are
layered on the same error-translation rules, and a payment-required
response (HTTP 402-class with a structured body) is translated into a
distinct `PaymentRequiredError` carrying
`{current_balance, required_balance, payment_url}`. -/
def get_balance (_c : Client) (net : BalanceNet) :
    Except DulayniError BalanceBody × List ApiCall :=
  match net with
  | .success body => (.ok body, [.balanceGet])
  | .paymentRequired cb rb url =>
    (.error (.paymentRequiredError "Payment required"
      { current_balance := cb, required_balance := rb, payment_url := url }),
     [.balanceGet])
  | .connectionFailure =>
    (.error (.connectionError "Could not connect to dulayni server"),
     [.balanceGet])
  | .timeout =>
    (.error (.timeoutError "Request timed out"), [.balanceGet])
  | .httpError reason =>
    (.error (.clientError ("API Error: " ++ reason)), [.balanceGet])

/-- **C7** — With a truthy (set, non-empty) `dulayni_api_key`, both
`request_verification_code` and `verify_code` return their `"skipped"`
result unchanged-state and issue no network call, whatever their arguments
and whatever the network would have answered. -/
theorem api_key_skips_verification (c : Client)
    (h : strTruthy c.dulayni_api_key = true) :
    (∀ pn net, request_verification_code c pn net =
        (c, .ok skippedAuthBody, [])) ∧
    (∀ code sid vnet, verify_code c code sid vnet =
        (c, .ok skippedVerifyBody, [])) ∧
    skippedAuthBody.status = some "skipped" ∧
    skippedVerifyBody.status = some "skipped" := by
  refine ⟨fun pn net => ?_, fun code sid vnet => ?_, rfl, rfl⟩
  · simp [request_verification_code, h]
  · simp [verify_code, h]

/-- Witness for C7 at a concrete client holding key `"k"`. -/
theorem api_key_skips_verification_witness :
    request_verification_code
      (mkClient none (some "k") none none none none none none none)
      (some "+33600000000") AuthNet.connectionFailure =
      (mkClient none (some "k") none none none none none none none,
       .ok skippedAuthBody, []) :=
  (api_key_skips_verification
    (mkClient none (some "k") none none none none none none none)
    (by decide)).1 (some "+33600000000") AuthNet.connectionFailure

/-- **C8** — A payment-required (HTTP 402-class) balance response with a
structured body is translated into `DulayniPaymentRequiredError` whose
`payment_info` carries exactly the `current_balance`, `required_balance`
and `payment_url` of the body — not a generic `DulayniClientError`. -/
theorem balance_payment_required (c : Client)
    (cb rb : Int) (url : String) :
    get_balance c (.paymentRequired cb rb url) =
      (.error (.paymentRequiredError "Payment required"
        { current_balance := cb, required_balance := rb,
          payment_url := url }),
       [.balanceGet]) := rfl

/-- **C3 (amended)** — A 401 from `/run_agent` makes `query` clear
`is_authenticated` and `auth_token` and raise `AuthenticationError`; and
*provided the client's `dulayni_api_key` is not set to a non-empty value*,
the next `query` call on the resulting client fails with
`AuthenticationError` before issuing any network request.  (With a truthy
`dulayni_api_key` the authentication gate passes again and the next call
does go to the network — see the counterexample to the unamended claim.) -/
theorem query_401_clears_auth (c : Client) (content : String)
    (hgate : (!c.is_authenticated && !strTruthy c.dulayni_api_key) = false) :
    (query c content .unauthorized).1.is_authenticated = false ∧
    (query c content .unauthorized).1.auth_token = none ∧
    (query c content .unauthorized).2.1 =
      .error (.authenticationError authExpiredMsg) ∧
    (query c content .unauthorized).2.2 = [.runAgentPost] ∧
    (strTruthy c.dulayni_api_key = false →
      ∀ content2 net2,
        query (query c content .unauthorized).1 content2 net2 =
          ((query c content .unauthorized).1,
           .error (.authenticationError authRequiredMsg), [])) := by
  refine ⟨?_, ?_, ?_, ?_, ?_⟩
  · simp only [query, hgate, Bool.false_eq_true, if_false]
  · simp only [query, hgate, Bool.false_eq_true, if_false]
  · simp only [query, hgate, Bool.false_eq_true, if_false]
  · simp only [query, hgate, Bool.false_eq_true, if_false]
  · intro hkey content2 net2
    have hia : c.is_authenticated = true := by
      rcases Bool.eq_false_or_eq_true c.is_authenticated with h | h
      · exact h
      · rw [h, hkey] at hgate; simp at hgate
    simp [query, hia, hkey]

/-- Witness for C3 (amended): a phone-authenticated client with no API key,
hit by a 401. -/
theorem query_401_clears_auth_witness :
    (query (set_auth_token
        (mkClient (some "+221") none none none none none none none none)
        "tok") "hello" .unauthorized).1.is_authenticated = false ∧
    (query (set_auth_token
        (mkClient (some "+221") none none none none none none none none)
        "tok") "hello" .unauthorized).2.2 = [.runAgentPost] := by
  have h := query_401_clears_auth
    (set_auth_token
      (mkClient (some "+221") none none none none none none none none)
      "tok") "hello" (by decide)
  exact ⟨h.1, h.2.2.2.1⟩

/-- The client of the counterexample to C3 as stated: authenticated via
`set_dulayni_api_key "k"`, so `dulayni_api_key` is a non-empty string. -/
def clientWithKey : Client :=
  set_dulayni_api_key
    (mkClient (some "+221") none none none none none none none none) "k"

/-- **Counterexample to C3 as stated** — after `clientWithKey` receives a
401 from `/run_agent`, the *next* `query` call, without re-authentication,
does NOT fail with `AuthenticationError` before issuing a network request:
it posts to `/run_agent` again and succeeds, because the authentication
gate also accepts a truthy `dulayni_api_key`. -/
theorem query_401_next_call_counterexample :
    (query clientWithKey "hi" .unauthorized).1.is_authenticated = false ∧
    (query (query clientWithKey "hi" .unauthorized).1 "again"
        (.ok { response := some "pong" })).2.2 = [.runAgentPost] ∧
    (query (query clientWithKey "hi" .unauthorized).1 "again"
        (.ok { response := some "pong" })).2.1 = .ok "pong" :=
  ⟨rfl, rfl, rfl⟩

/-- Client states reachable through the public operations of
`DulayniClient`: construction, the setters, the two verification calls, the
`dulayni_api_key` fast path of `authenticate`, and query dispatch
(`query_json`/`query_stream` perform the same state transitions as
`query`). -/
inductive Reachable : Client → Prop
  | construct (pn key model agent thread sys mcp mem pg : Option String) :
      Reachable (mkClient pn key model agent thread sys mcp mem pg)
  | auth_token_set {c : Client} (t : String) :
      Reachable c → Reachable (set_auth_token c t)
  | api_key_set {c : Client} (k : String) :
      Reachable c → Reachable (set_dulayni_api_key c k)
  | phone_set {c : Client} (p : Option String) :
      Reachable c → Reachable (set_phone_number c p)
  | thread_set {c : Client} (t : Option String) :
      Reachable c → Reachable (set_thread_id c t)
  | prompt_set {c : Client} (s : Option String) :
      Reachable c → Reachable (set_system_prompt c s)
  | memory_set {c : Client} (m : Option String) :
      Reachable c → Reachable (set_memory_db c m)
  | mcp_set {c : Client} (m : Option String) :
      Reachable c → Reachable (set_mcp_servers c m)
  | pg_set {c : Client} (p : Option String) :
      Reachable c → Reachable (set_pg_uri c p)
  | model_set {c : Client} (m : Option String) :
      Reachable c → Reachable (set_model c m)
  | agent_set {c : Client} (a : Option String) :
      Reachable c → Reachable (set_agent_type c a)
  | verification_requested {c : Client} (pn : Option String) (net : AuthNet) :
      Reachable c → Reachable (request_verification_code c pn net).1
  | code_verified {c : Client} (code : String) (sid : Option String)
      (net : VerifyNet) :
      Reachable c → Reachable (verify_code c code sid net).1
  | queried {c : Client} (content : String) (net : RunAgentNet) :
      Reachable c → Reachable (query c content net).1
  | authenticated_by_key {c : Client} :
      Reachable c → strTruthy c.dulayni_api_key = true →
      Reachable (authenticate_skip c)

/-- `request_verification_code` either leaves the client unchanged or only
updates `verification_session_id` / `phone_number`. -/
theorem request_verification_code_fst_cases (c : Client)
    (pn : Option String) (net : AuthNet) :
    (request_verification_code c pn net).1 = c ∨
    ∃ body : AuthBody,
      (request_verification_code c pn net).1 =
        { c with verification_session_id := body.session_id,
                 phone_number := if strTruthy pn then pn
                                 else c.phone_number } := by
  by_cases hk : strTruthy c.dulayni_api_key = true
  · left; simp [request_verification_code, hk]
  · by_cases hp : strTruthy (if strTruthy pn then pn else c.phone_number) = true
    · cases net with
      | success body =>
        right; exact ⟨body, by simp [request_verification_code, hk, hp]⟩
      | connectionFailure => left; simp [request_verification_code, hk, hp]
      | httpErrorJson m => left; simp [request_verification_code, hk, hp]
      | httpErrorRaw r => left; simp [request_verification_code, hk, hp]
    · left; simp [request_verification_code, hk, hp]

/-- `verify_code` either leaves the client unchanged or installs the token
of a successful `/verify` body. -/
theorem verify_code_fst_cases (c : Client) (code : String)
    (sid : Option String) (net : VerifyNet) :
    (verify_code c code sid net).1 = c ∨
    ∃ body : VerifyBody,
      (verify_code c code sid net).1 =
        { c with auth_token := body.auth_token,
                 is_authenticated := strTruthy body.auth_token } := by
  by_cases hk : strTruthy c.dulayni_api_key = true
  · left; simp [verify_code, hk]
  · by_cases hs : strTruthy
      (if strTruthy sid then sid else c.verification_session_id) = true
    · cases net with
      | success body => right; exact ⟨body, by simp [verify_code, hk, hs]⟩
      | connectionFailure => left; simp [verify_code, hk, hs]
      | httpErrorJson m => left; simp [verify_code, hk, hs]
      | httpErrorRaw r => left; simp [verify_code, hk, hs]
    · left; simp [verify_code, hk, hs]

/-- `query` either leaves the client unchanged or (on a 401) clears the
authentication state. -/
theorem query_fst_cases (c : Client) (content : String) (net : RunAgentNet) :
    (query c content net).1 = c ∨
    (query c content net).1 =
      { c with is_authenticated := false, auth_token := none } := by
  by_cases hg : (!c.is_authenticated && !strTruthy c.dulayni_api_key) = true
  · left; simp [query, hg]
  · cases net with
    | ok body => left; simp [query, hg]
    | unauthorized => right; simp [query, hg]
    | connectionFailure => left; simp [query, hg]
    | timeout => left; simp [query, hg]
    | httpError reason => left; simp [query, hg]

/-- **C4 (amended)** — In every reachable client state, `is_authenticated`
implies that `dulayni_api_key` or `auth_token` is set (not `None`).  The
biconditional of the original claim fails: `__init__` leaves
`is_authenticated = False` even when a `dulayni_api_key` argument is
supplied; it becomes `True` only through `set_dulayni_api_key`,
`set_auth_token`, a successful `verify_code`, or `authenticate()`. -/
theorem reachable_auth_implies_credential (c : Client) (h : Reachable c) :
    c.is_authenticated = true →
    c.dulayni_api_key ≠ none ∨ c.auth_token ≠ none := by
  induction h with
  | construct pn key model agent thread sys mcp mem pg =>
    intro hauth; simp [mkClient] at hauth
  | auth_token_set t _ _ =>
    intro _; right; simp [set_auth_token]
  | api_key_set k _ _ =>
    intro _; left; simp [set_dulayni_api_key]
  | phone_set p _ _ =>
    intro hauth; simp [set_phone_number] at hauth
  | thread_set t _ ih =>
    intro hauth; simpa [set_thread_id] using ih hauth
  | prompt_set s _ ih =>
    intro hauth; simpa [set_system_prompt] using ih hauth
  | memory_set m _ ih =>
    intro hauth; simpa [set_memory_db] using ih hauth
  | mcp_set m _ ih =>
    intro hauth; simpa [set_mcp_servers] using ih hauth
  | pg_set p _ ih =>
    intro hauth; simpa [set_pg_uri] using ih hauth
  | model_set m _ ih =>
    intro hauth; simpa [set_model] using ih hauth
  | agent_set a _ ih =>
    intro hauth; simpa [set_agent_type] using ih hauth
  | verification_requested pn net _ ih =>
    intro hauth
    rcases request_verification_code_fst_cases _ pn net with heq | ⟨body, heq⟩
    · rw [heq] at hauth ⊢; exact ih hauth
    · rw [heq] at hauth ⊢; exact ih hauth
  | code_verified code sid net _ ih =>
    intro hauth
    rcases verify_code_fst_cases _ code sid net with heq | ⟨body, heq⟩
    · rw [heq] at hauth ⊢; exact ih hauth
    · rw [heq] at hauth ⊢
      right
      simp only at hauth ⊢
      rcases (strTruthy_eq_true_iff body.auth_token).1 hauth with ⟨t, ht, _⟩
      simp [ht]
  | queried content net _ ih =>
    intro hauth
    rcases query_fst_cases _ content net with heq | heq
    · rw [heq] at hauth ⊢; exact ih hauth
    · rw [heq] at hauth; simp at hauth
  | authenticated_by_key _ hkey ih =>
    intro _
    left
    rcases (strTruthy_eq_true_iff _).1 hkey with ⟨k, hk, _⟩
    simp [authenticate_skip, hk]

/-- Witness for C4 (amended): the state after `set_auth_token "tok"` on a
fresh client is reachable, authenticated, and indeed holds a token. -/
theorem reachable_auth_implies_credential_witness :
    (set_auth_token
        (mkClient (some "+221") none none none none none none none none)
        "tok").dulayni_api_key ≠ none ∨
    (set_auth_token
        (mkClient (some "+221") none none none none none none none none)
        "tok").auth_token ≠ none :=
  reachable_auth_implies_credential _
    (Reachable.auth_token_set "tok"
      (Reachable.construct (some "+221") none none none none none none none
        none))
    (by decide)

/-- The invariant exactly as the claim states it: `is_authenticated` iff
the API key is set or the bearer token is set (and, the token having been
cleared on every known-expiry signal, "set" and "set and not
known-expired" coincide in this state space). -/
def authInvariantIff (c : Client) : Prop :=
  c.is_authenticated = true ↔
    (c.dulayni_api_key ≠ none ∨ c.auth_token ≠ none)

/-- **Counterexample to C4 as stated** — the state immediately after
`DulayniClient(dulayni_api_key="k")` is reachable, yet violates the
biconditional: the key is set while `is_authenticated` is still `False`,
because `__init__` initialises `is_authenticated = False` unconditionally
(client.py:232). -/
theorem auth_invariant_counterexample :
    Reachable (mkClient none (some "k") none none none none none none none) ∧
    ¬ authInvariantIff
        (mkClient none (some "k") none none none none none none none) :=
  ⟨Reachable.construct none (some "k") none none none none none none none,
   by simp [authInvariantIff, mkClient]⟩

/-- The `optional_fields` list of `DulayniClient._build_payload`
(client.py:571-580), in source order. -/
def optional_fields : List String :=
  ["agent_type", "model", "system_prompt", "thread_id",
   "memory_db", "pg_uri", "mcp_servers", "dulayni_api_key"]

/-- `getattr(self, field)` for the fields named in `optional_fields`. -/
def Client.getField (c : Client) : String → Option String
  | "agent_type" => c.agent_type
  | "model" => c.model
  | "system_prompt" => c.system_prompt
  | "thread_id" => c.thread_id
  | "memory_db" => c.memory_db
  | "pg_uri" => c.pg_uri
  | "mcp_servers" => c.mcp_servers
  | "dulayni_api_key" => c.dulayni_api_key
  | _ => none

/-- The per-field resolution of `_build_payload` (client.py:582-586):
`value = kwargs.get(field); if value is None: value = getattr(self, field)`. -/
def resolveField (c : Client) (kwargs : String → Option String)
    (f : String) : Option String :=
  match kwargs f with
  | some v => some v
  | none => c.getField f

/-- `DulayniClient._build_payload` (client.py:561-592) as an ordered
key/value list: the required `role`/`user` and `content` entries first,
then, in `optional_fields` order, one entry per field whose resolved value
is present.  (The variant in src/dulayni_client/client.py:156-188 is the
same algorithm over a different `optional_fields` list.) -/
def build_payload (c : Client) (content : String)
    (kwargs : String → Option String) : List (String × String) :=
  [("role", "user"), ("content", content)] ++
    optional_fields.filterMap
      (fun f => (resolveField c kwargs f).map (fun v => (f, v)))

theorem map_fst_filterMap_resolve (c : Client)
    (kwargs : String → Option String) (l : List String) :
    (l.filterMap
        (fun f => (resolveField c kwargs f).map (fun v => (f, v)))).map
      Prod.fst =
      l.filter (fun f => (resolveField c kwargs f).isSome) := by
  induction l with
  | nil => rfl
  | cons f rest ih =>
    cases h : resolveField c kwargs f with
    | none => simp [List.filterMap_cons, List.filter_cons, h, ih]
    | some v => simp [List.filterMap_cons, List.filter_cons, h, ih]

/-- **C5** — `_build_payload` always contains `role="user"` and the given
`content`; each optional field appears with its override value when that is
not `None`, else with the instance value when that is not `None`; and the
key list is exactly `role`, `content` and the optional fields whose
resolved value is present — so an unresolved field contributes no key (and
no `null` placeholder) at all. -/
theorem build_payload_spec (c : Client) (content : String)
    (kwargs : String → Option String) :
    ("role", "user") ∈ build_payload c content kwargs ∧
    ("content", content) ∈ build_payload c content kwargs ∧
    (∀ f v, f ∈ optional_fields → resolveField c kwargs f = some v →
      (f, v) ∈ build_payload c content kwargs) ∧
    (∀ f, f ∈ optional_fields → resolveField c kwargs f = none →
      ∀ v, (f, v) ∉ build_payload c content kwargs) ∧
    (build_payload c content kwargs).map Prod.fst =
      ["role", "content"] ++
        optional_fields.filter (fun f => (resolveField c kwargs f).isSome) := by
  refine ⟨?_, ?_, ?_, ?_, ?_⟩
  · simp [build_payload]
  · simp [build_payload]
  · intro f v hf hres
    simp only [build_payload, List.mem_append, List.mem_filterMap]
    right
    exact ⟨f, hf, by simp [hres]⟩
  · intro f hf hres v hmem
    simp only [build_payload, List.mem_append] at hmem
    rcases hmem with hbase | hopt
    · simp only [List.mem_cons, List.not_mem_nil, or_false,
        Prod.mk.injEq] at hbase
      rcases hbase with ⟨hf1, _⟩ | ⟨hf2, _⟩
      · subst hf1; exact absurd hf (by decide)
      · subst hf2; exact absurd hf (by decide)
    · rcases List.mem_filterMap.1 hopt with ⟨a, _, hg⟩
      rcases Option.map_eq_some'.1 hg with ⟨w, hw, heq⟩
      injection heq with h1 h2
      subst h1
      rw [hw] at hres
      exact Option.noConfusion hres
  · simp only [build_payload, List.map_append]
    rw [map_fst_filterMap_resolve]
    rfl

/-- Witness for C5: a client whose `model` is set, with a `thread_id`
override in kwargs, yields both entries in its payload. -/
theorem build_payload_spec_witness :
    ("model", "gpt-4o") ∈
      build_payload
        (mkClient none none (some "gpt-4o") none none none none none none)
        "hello"
        (fun f => if f = "thread_id" then some "t1" else none) :=
  (build_payload_spec
      (mkClient none none (some "gpt-4o") none none none none none none)
      "hello"
      (fun f => if f = "thread_id" then some "t1" else none)).2.2.1
    "model" "gpt-4o" (by decide) (by decide)

/-- One decoded Server-Sent-Event of `POST /run_agent_stream`, discriminated
on `data.get("type")` exactly as client.py:425-441 does.  `otherEvent`
covers any other `type` value, which the loop silently skips. -/
inductive SEvent
  | message (content : String)
  | toolStart (tool_name tool_call_id input : String)
  | toolEnd (tool_name tool_call_id output : String) (execution_time : Int)
  | todosUpdate (content : String)
  | otherEvent (type_ : String)
  deriving DecidableEq, Repr

/-- One observable action of the `ToolExecutionDisplay` side channel.
`endToolCompleted` is the body of `end_tool` under
`if tool_call_id in self.active_tools` (client.py:54-75);
`endToolIgnored` is an `end_tool` call whose identifier is not active, which
does nothing. -/
inductive DisplayAction
  | startTool (tool_name tool_call_id input : String)
  | endToolCompleted (tool_name tool_call_id : String)
  | endToolIgnored (tool_call_id : String)
  | todosShown (content : String)
  deriving DecidableEq, Repr

/-- The SSE consumption loop of `DulayniClient.query_stream`
(client.py:420-441), run over a finite event list.  The display state is
the set of active `tool_call_id`s (`self.active_tools` keys).  Returns
(events yielded to the caller, display actions in order, final active
set). -/
def process_stream : List SEvent → List String →
    List SEvent × List DisplayAction × List String
  | [], active => ([], [], active)
  | e :: rest, active =>
    match e with
    | .message content =>
      let (ys, ds, a) := process_stream rest active
      (.message content :: ys, ds, a)
    | .toolStart tool_name tool_call_id input =>
      -- start_tool: self.active_tools[tool_call_id] = {...}
      let active1 := if active.contains tool_call_id then active
                     else tool_call_id :: active
      let (ys, ds, a) := process_stream rest active1
      (ys, .startTool tool_name tool_call_id input :: ds, a)
    | .toolEnd tool_name tool_call_id _output _etime =>
      -- end_tool: if tool_call_id in self.active_tools: ... del ...
      if active.contains tool_call_id then
        let (ys, ds, a) := process_stream rest (active.erase tool_call_id)
        (ys, .endToolCompleted tool_name tool_call_id :: ds, a)
      else
        let (ys, ds, a) := process_stream rest active
        (ys, .endToolIgnored tool_call_id :: ds, a)
    | .todosUpdate content =>
      let (ys, ds, a) := process_stream rest active
      (ys, .todosShown content :: ds, a)
    | .otherEvent _ =>
      let (ys, ds, a) := process_stream rest active
      (ys, ds, a)

/-- `query_stream`'s event handling from a fresh `ToolExecutionDisplay`
(no active tools). -/
def query_stream_events (events : List SEvent) :
    List SEvent × List DisplayAction :=
  ((process_stream events []).1, (process_stream events []).2.1)

/-- Is this a `message`-typed event? -/
def isMessage : SEvent → Bool
  | .message _ => true
  | _ => false

/-- The (type, identifier-or-content) tag of a side-channel-dispatched
event; `none` for events the loop does not dispatch to the display. -/
def eventTag : SEvent → Option (String × String)
  | .toolStart _ i _ => some ("tool_start", i)
  | .toolEnd _ i _ _ => some ("tool_end", i)
  | .todosUpdate c => some ("todos_update", c)
  | _ => none

/-- The (type, identifier-or-content) tag of a display action. -/
def actionTag : DisplayAction → String × String
  | .startTool _ i _ => ("tool_start", i)
  | .endToolCompleted _ i => ("tool_end", i)
  | .endToolIgnored i => ("tool_end", i)
  | .todosShown c => ("todos_update", c)

theorem process_stream_yields_messages (events : List SEvent)
    (active : List String) :
    (process_stream events active).1 = events.filter isMessage := by
  induction events generalizing active with
  | nil => rfl
  | cons e rest ih =>
    cases e with
    | message content => simp [process_stream, List.filter_cons, isMessage, ih]
    | toolStart n i inp => simp [process_stream, List.filter_cons, isMessage, ih]
    | toolEnd n i o t =>
      by_cases h : i ∈ active <;>
        simp [process_stream, List.filter_cons, isMessage, h, ih]
    | todosUpdate content => simp [process_stream, List.filter_cons, isMessage, ih]
    | otherEvent ty => simp [process_stream, List.filter_cons, isMessage, ih]

theorem process_stream_dispatch_tags (events : List SEvent)
    (active : List String) :
    (process_stream events active).2.1.map actionTag =
      events.filterMap eventTag := by
  induction events generalizing active with
  | nil => rfl
  | cons e rest ih =>
    cases e with
    | message content =>
      simp [process_stream, List.filterMap_cons, eventTag, ih]
    | toolStart n i inp =>
      simp [process_stream, List.filterMap_cons, eventTag, actionTag, ih]
    | toolEnd n i o t =>
      by_cases h : i ∈ active <;>
        simp [process_stream, List.filterMap_cons, eventTag, actionTag, h, ih]
    | todosUpdate content =>
      simp [process_stream, List.filterMap_cons, eventTag, actionTag, ih]
    | otherEvent ty =>
      simp [process_stream, List.filterMap_cons, eventTag, ih]

/-- **C6** — For every finite event sequence consumed by `query_stream`,
exactly the `message`-typed events are yielded, in order; every
`tool_start`, `tool_end` and `todos_update` event is dispatched to the
display side channel instead (one action per such event, in order, with
matching type and identifier); and on the synthetic sequence
`[tool_start(id=1), message("a"), tool_end(id=1), message("b")]` the two
messages are yielded in order while the display processes the
`tool_end` strictly after its matching `tool_start`, as the explicit action
trace shows. -/
theorem query_stream_spec :
    (∀ events : List SEvent,
      (query_stream_events events).1 = events.filter isMessage) ∧
    (∀ events : List SEvent,
      (query_stream_events events).2.map actionTag =
        events.filterMap eventTag) ∧
    query_stream_events
        [.toolStart "t" "1" "in", .message "a",
         .toolEnd "t" "1" "out" 0, .message "b"] =
      ([.message "a", .message "b"],
       [.startTool "t" "1" "in", .endToolCompleted "t" "1"]) := by
  refine ⟨?_, ?_, ?_⟩
  · intro events
    exact process_stream_yields_messages events []
  · intro events
    exact process_stream_dispatch_tags events []
  · rfl

/-- The observations one `start_server` invocation makes of its
environment (src/dulayni/mcp/start.py): the initial health probe
(`is_server_running`), the TCP probe (`is_port_free`), whether
`subprocess.Popen` succeeds, and whether `wait_for_server` sees the child
become healthy within its timeout. -/
structure ServerProbe where
  running : Bool
  portFree : Bool
  spawnOk : Bool
  becomesHealthy : Bool
  deriving DecidableEq, Repr

/-- The five exits of `start_server` (mcp/start.py:40-88). -/
inductive StartResult
  | alreadyRunning    -- health probe succeeded: return None, nothing done
  | portInUse         -- port occupied but not healthy: return None
  | spawnFailed       -- Popen raised: return None
  | startedHealthy    -- spawned, wait_for_server succeeded: return process
  | startedUnhealthy  -- spawned, timeout elapsed: warn, still return process
  deriving DecidableEq, Repr

/-- `start_server` (mcp/start.py:40-88), with the number of child processes
it launched (`subprocess.Popen` completions). -/
def start_server (p : ServerProbe) : StartResult × Nat :=
  if p.running then (.alreadyRunning, 0)
  else if !p.portFree then (.portInUse, 0)
  else if !p.spawnOk then (.spawnFailed, 0)
  else if p.becomesHealthy then (.startedHealthy, 1)
  else (.startedUnhealthy, 1)

/-- **C9** — `start_server` is idempotent: when the initial health probe on
the port already succeeds it spawns nothing and returns without launching a
process; consequently two successive calls perform at most one spawn in
total, given that a helper launched by the first call is still on the port
(healthy, or at least occupying it) when the second call probes. -/
theorem start_server_idempotent (p1 p2 : ServerProbe)
    (hsticky : (start_server p1).2 = 1 →
      p2.running = true ∨ p2.portFree = false) :
    (p1.running = true → start_server p1 = (.alreadyRunning, 0)) ∧
    (start_server p1).2 + (start_server p2).2 ≤ 1 := by
  constructor
  · intro h; simp [start_server, h]
  · by_cases h1 : (start_server p1).2 = 1
    · rcases hsticky h1 with h2 | h2
      · rw [h1]; simp [start_server, h2]
      · rcases Bool.eq_false_or_eq_true p2.running with hr | hr
        · rw [h1]; simp [start_server, hr]
        · rw [h1]; simp [start_server, h2, hr]
    · have h0 : (start_server p1).2 = 0 := by
        unfold start_server at h1 ⊢
        rcases Bool.eq_false_or_eq_true p1.running with hr | hr <;>
          rcases Bool.eq_false_or_eq_true p1.portFree with hf | hf <;>
          rcases Bool.eq_false_or_eq_true p1.spawnOk with hs | hs <;>
          rcases Bool.eq_false_or_eq_true p1.becomesHealthy with hh | hh <;>
          simp [hr, hf, hs, hh] at h1 ⊢
      rw [h0]
      have : (start_server p2).2 ≤ 1 := by
        unfold start_server
        rcases Bool.eq_false_or_eq_true p2.running with hr | hr <;>
          rcases Bool.eq_false_or_eq_true p2.portFree with hf | hf <;>
          rcases Bool.eq_false_or_eq_true p2.spawnOk with hs | hs <;>
          rcases Bool.eq_false_or_eq_true p2.becomesHealthy with hh | hh <;>
          simp [hr, hf, hs, hh]
      simpa using this

/-- Witness for C9: a first call that spawns a helper which stays healthy,
then a second call that finds the port healthy and is a no-op. -/
theorem start_server_idempotent_witness :
    (start_server { running := false, portFree := true, spawnOk := true,
                    becomesHealthy := true }).2 +
      (start_server { running := true, portFree := false, spawnOk := true,
                      becomesHealthy := true }).2 ≤ 1 :=
  (start_server_idempotent
    { running := false, portFree := true, spawnOk := true,
      becomesHealthy := true }
    { running := true, portFree := false, spawnOk := true,
      becomesHealthy := true }
    (fun _ => Or.inl rfl)).2

/-- The outcome of one `handle_whatsapp_authentication` run: the client as
mutated, the returned boolean (or a propagated exception), the network
calls issued in order, and the session record written to the store (if
any). -/
structure WhatsAppAuthResult where
  client : Client
  result : Except DulayniError Bool
  calls : List ApiCall
  saved : Option Session
  deriving Repr

/-- The `else` branch of `AuthenticationManager.handle_whatsapp_authentication`
(auth/authenticator.py:53-97), identical in the inlined copy in
src/dulayni/cli.py:796-816: request a verification code, prompt for `code`,
verify it, persist `{phone_number, auth_token, expiry_time = now + 24h}`,
then check the balance (every balance failure is swallowed by the inner
`except` clauses).  Only `DulayniAuthenticationError` is caught (returning
`False`); any other exception propagates. -/
def whatsapp_new_auth_flow (c : Client) (phone_number : String) (now : Int)
    (authNet : AuthNet) (code : String) (verifyNet : VerifyNet)
    (balanceNet : BalanceNet) : WhatsAppAuthResult :=
  let (c1, r1, calls1) := request_verification_code c none authNet
  match r1 with
  | .error (.authenticationError _) =>
    { client := c1, result := .ok false, calls := calls1, saved := none }
  | .error e =>
    { client := c1, result := .error e, calls := calls1, saved := none }
  | .ok _ =>
    let (c2, r2, calls2) := verify_code c1 code none verifyNet
    match r2 with
    | .error (.authenticationError _) =>
      { client := c2, result := .ok false, calls := calls1 ++ calls2,
        saved := none }
    | .error e =>
      { client := c2, result := .error e, calls := calls1 ++ calls2,
        saved := none }
    | .ok body =>
      { client := c2, result := .ok true,
        calls := calls1 ++ calls2 ++ (get_balance c2 balanceNet).2,
        saved := some { phone_number := some phone_number,
                        auth_token := body.auth_token,
                        expiry_time := some (now + 24 * 60 * 60) } }

/-- `AuthenticationManager.handle_whatsapp_authentication`
(auth/authenticator.py:19-97).  When the stored session is valid and its
`phone_number` matches, the stored token is installed via `set_auth_token`
and only the (failure-swallowing) balance check touches the network;
otherwise the full new-authentication flow runs. -/
def handle_whatsapp_authentication (c : Client) (phone_number : String)
    (stored : Option Session) (now : Int) (authNet : AuthNet)
    (code : String) (verifyNet : VerifyNet) (balanceNet : BalanceNet) :
    WhatsAppAuthResult :=
  match stored with
  | some s =>
    if is_session_valid (some s) now && (s.phone_number == some phone_number)
    then
      let c1 := set_auth_token c (s.auth_token.getD "")
      { client := c1, result := .ok true,
        calls := (get_balance c1 balanceNet).2, saved := none }
    else
      whatsapp_new_auth_flow c phone_number now authNet code verifyNet
        balanceNet
  | none =>
    whatsapp_new_auth_flow c phone_number now authNet code verifyNet
      balanceNet

theorem is_session_valid_token_truthy (s : Session) (now : Int)
    (h : is_session_valid (some s) now = true) :
    strTruthy s.auth_token = true := by
  cases hT : strTruthy s.auth_token
  · rw [is_session_valid, hT] at h
    simp at h
  · rfl

theorem get_balance_calls (c : Client) (net : BalanceNet) :
    (get_balance c net).2 = [ApiCall.balanceGet] := by
  cases net <;> rfl

theorem request_verification_code_calls (c : Client) (net : AuthNet)
    (hkey : strTruthy c.dulayni_api_key = false)
    (hphone : strTruthy c.phone_number = true) :
    (request_verification_code c none net).2.2 = [ApiCall.authPost] := by
  cases net <;>
    simp [request_verification_code, hkey, hphone,
      show strTruthy none = false from rfl]

theorem authPost_mem_new_flow (c : Client) (phone_number : String)
    (now : Int) (authNet : AuthNet) (code : String) (verifyNet : VerifyNet)
    (balanceNet : BalanceNet)
    (hkey : strTruthy c.dulayni_api_key = false)
    (hphone : strTruthy c.phone_number = true) :
    ApiCall.authPost ∈
      (whatsapp_new_auth_flow c phone_number now authNet code verifyNet
        balanceNet).calls := by
  have hcalls := request_verification_code_calls c authNet hkey hphone
  simp only [whatsapp_new_auth_flow]
  rcases hreq : request_verification_code c none authNet with ⟨c1, r1, calls1⟩
  have hc1 : calls1 = [ApiCall.authPost] := by
    rw [hreq] at hcalls; exact hcalls
  subst hc1
  cases r1 with
  | error e =>
    cases e <;> simp
  | ok body =>
    rcases hver : verify_code c1 code none verifyNet with ⟨c2, r2, calls2⟩
    cases r2 with
    | error e => cases e <;> simp
    | ok vbody => simp

/-- **C1** — For a phone-based attempt (no API key on the client, client
configured with phone `P`): if the stored session is valid and its
`phone_number` equals `P`, authentication succeeds reusing the stored
`auth_token` and neither `/auth` nor `/verify` is called; otherwise —
invalid or absent session, or a different phone number — a fresh
`POST /auth` is issued. -/
theorem whatsapp_auth_session_reuse (c : Client) (phone_number : String)
    (stored : Option Session) (now : Int) (authNet : AuthNet)
    (code : String) (verifyNet : VerifyNet) (balanceNet : BalanceNet)
    (hkey : strTruthy c.dulayni_api_key = false)
    (hcp : c.phone_number = some phone_number) (hpne : phone_number ≠ "") :
    (∀ s, stored = some s → is_session_valid (some s) now = true →
      s.phone_number = some phone_number →
        (handle_whatsapp_authentication c phone_number stored now authNet
          code verifyNet balanceNet).result = .ok true ∧
        (handle_whatsapp_authentication c phone_number stored now authNet
          code verifyNet balanceNet).client.auth_token = s.auth_token ∧
        ApiCall.authPost ∉
          (handle_whatsapp_authentication c phone_number stored now authNet
            code verifyNet balanceNet).calls ∧
        ApiCall.verifyPost ∉
          (handle_whatsapp_authentication c phone_number stored now authNet
            code verifyNet balanceNet).calls) ∧
    ((∀ s, stored = some s →
        ¬(is_session_valid (some s) now = true ∧
          s.phone_number = some phone_number)) →
      ApiCall.authPost ∈
        (handle_whatsapp_authentication c phone_number stored now authNet
          code verifyNet balanceNet).calls) := by
  have hphone : strTruthy c.phone_number = true := by
    rw [hcp]; exact (strTruthy_eq_true_iff _).2 ⟨phone_number, rfl, hpne⟩
  constructor
  · rintro s rfl hvalid hsp
    have htok := is_session_valid_token_truthy s now hvalid
    rcases (strTruthy_eq_true_iff _).1 htok with ⟨t, ht, _⟩
    have hcond : (is_session_valid (some s) now &&
        (s.phone_number == some phone_number)) = true := by
      rw [hvalid, hsp]; simp
    refine ⟨?_, ?_, ?_, ?_⟩ <;>
      simp [handle_whatsapp_authentication, hcond, get_balance_calls,
        set_auth_token, ht]
  · intro hno
    cases stored with
    | none =>
      simp only [handle_whatsapp_authentication]
      exact authPost_mem_new_flow c phone_number now authNet code verifyNet
        balanceNet hkey hphone
    | some s =>
      have hcond : (is_session_valid (some s) now &&
          (s.phone_number == some phone_number)) = false := by
        rcases hv : is_session_valid (some s) now with _ | _
        · simp
        · rcases hp : s.phone_number == some phone_number with _ | _
          · simp
          · exact absurd ⟨hv, by simpa using hp⟩ (hno s rfl)
      simp only [handle_whatsapp_authentication, hcond,
        Bool.false_eq_true, if_false]
      exact authPost_mem_new_flow c phone_number now authNet code verifyNet
        balanceNet hkey hphone

/-- Witness for C1: reusing a valid stored session for the same phone
issues no `/auth` call. -/
theorem whatsapp_auth_session_reuse_witness :
    ApiCall.authPost ∉
      (handle_whatsapp_authentication
        (mkClient (some "+221") none none none none none none none none)
        "+221"
        (some { phone_number := some "+221", auth_token := some "tok",
                expiry_time := some 100 })
        50 AuthNet.connectionFailure "1234" VerifyNet.connectionFailure
        (BalanceNet.success { phone_number := some "+221",
                              balance := 80 })).calls :=
  ((whatsapp_auth_session_reuse
      (mkClient (some "+221") none none none none none none none none)
      "+221"
      (some { phone_number := some "+221", auth_token := some "tok",
              expiry_time := some 100 })
      50 AuthNet.connectionFailure "1234" VerifyNet.connectionFailure
      (BalanceNet.success { phone_number := some "+221", balance := 80 })
      (by decide) rfl (by decide)).1
    { phone_number := some "+221", auth_token := some "tok",
      expiry_time := some 100 }
    rfl (by decide) rfl).2.2.1

end Dulayni
